import Mathlib

/-!
Verification development for the xivdyetools presets API.

This file shallowly embeds the core of the service — the dye-signature
duplicate detector, the moderation pipeline (local word filter plus the
optional Perspective classifier), the vote ledger, the daily submission
rate limiter, the preset listing/status operations, and the submission
route — as executable Lean definitions, and proves the stated properties
about them.

Modelling conventions:
* The D1 relational store is modelled as an in-memory value `Db` holding
  the `presets` and `votes` tables as lists; SQL row order is the list
  order, and `LIMIT 1` / `first()` take the first list element.
* JavaScript strings are Lean `String`s; `toLowerCase()` is modelled by
  `jsToLower` (ASCII case mapping, which is what the inputs use), and
  SQLite's byte-wise TEXT comparison by `textLt`/`textLe`.
* JavaScript numbers holding integer counts and dye ids are `Int`;
  Perspective confidence scores in [0,1] are `Rat`.
* `Date`/`crypto.randomUUID()` values are passed in as parameters
  (`now`, `newId`, `today`, `tomorrow`).
* Fields stored as JSON TEXT in the database (`dyes`, `tags`) are kept
  structured in the row model; where the code compares or produces the
  serialized form (`dye_signature`, `JSON.stringify`), the explicit
  serializer `jsonIntList` is used.
* The falsy-coalescing JavaScript idioms `x || 0`, `x || 1`,
  `x || 'Unknown User'` are modelled by `jsOrInt` / `jsOrStr`, which
  treat `0` and `""` as falsy exactly as JavaScript does.
-/

namespace XivPresets

/-- Model of JavaScript `v || d` for numbers held in an optional field:
`undefined`/`null` and `0` are falsy. -/
def jsOrInt (v : Option Int) (d : Int) : Int :=
  match v with
  | some x => if x = 0 then d else x
  | none => d

/-- Model of JavaScript `v || d` for strings: `undefined`/`null` and the
empty string are falsy. -/
def jsOrStr (v : Option String) (d : String) : String :=
  match v with
  | some s => if s = "" then d else s
  | none => d

/-- Model of JavaScript `String.prototype.toLowerCase()` for the ASCII
texts this service handles: per-character lower-casing. -/
def jsToLower (s : String) : String := String.mk (s.toList.map Char.toLower)

/-- Lexicographic (codepoint-wise) strict order on character lists:
the model of SQLite's byte-wise comparison of TEXT values. -/
def charListLt : List Char → List Char → Bool
  | [], [] => false
  | [], _ :: _ => true
  | _ :: _, [] => false
  | a :: as, b :: bs =>
    if a.toNat < b.toNat then true
    else if b.toNat < a.toNat then false
    else charListLt as bs

/-- Strict TEXT comparison `a < b` as SQLite evaluates it on ISO-8601
timestamp strings. -/
def textLt (a b : String) : Bool := charListLt a.toList b.toList

/-- TEXT comparison `a <= b`. -/
def textLe (a b : String) : Bool := textLt a b || a == b

/-- Serialization of an integer list as `JSON.stringify` prints it:
`[a,b,c]` with no spaces. -/
def jsonIntList (l : List Int) : String :=
  "[" ++ String.intercalate "," (l.map toString) ++ "]"

/-- Serialization of a string list as `JSON.stringify` prints it (for the
tag lists this service stores, which contain no characters needing JSON
escaping). -/
def jsonStrList (l : List String) : String :=
  "[" ++ String.intercalate "," (l.map (fun s => "\"" ++ s ++ "\"")) ++ "]"

/-- Embeds `generateDyeSignature` (src/services/preset-service.ts):
`[...dyes].sort((a, b) => a - b)` followed by `JSON.stringify`. The
numeric-ascending JavaScript sort is modelled by `List.insertionSort`;
both produce the unique `≤`-sorted permutation of the input. -/
def generateDyeSignature (dyes : List Int) : String :=
  jsonIntList (List.insertionSort (· ≤ ·) dyes)

/-- Database row of the `presets` table. `dyes` and `tags` are stored as
JSON TEXT by the code and kept structured here; `is_curated` is the
SQLite 0/1 integer. `status` is the TEXT column. -/
structure PresetRow where
  id : String
  name : String
  description : String
  category_id : String
  dyes : List Int
  tags : List String
  author_discord_id : Option String
  author_name : Option String
  vote_count : Int
  status : String
  is_curated : Int
  created_at : String
  updated_at : String
  dye_signature : Option String
deriving DecidableEq, Repr

/-- Database row of the `votes` table. -/
structure VoteRow where
  preset_id : String
  user_discord_id : String
  created_at : String
deriving DecidableEq, Repr

/-- The relational store: the two tables the embedded operations touch. -/
structure Db where
  presets : List PresetRow
  votes : List VoteRow
deriving DecidableEq, Repr

/-- API-facing preset entity (`CommunityPreset` in src/types.ts). -/
structure CommunityPreset where
  id : String
  name : String
  description : String
  category_id : String
  dyes : List Int
  tags : List String
  author_discord_id : Option String
  author_name : Option String
  vote_count : Int
  status : String
  is_curated : Bool
  created_at : String
  updated_at : String
  dye_signature : Option String
deriving DecidableEq, Repr

/-- Embeds `rowToPreset` (src/services/preset-service.ts). The quirk
`row.dye_signature || undefined` maps both NULL and the empty string to
`undefined`. -/
def rowToPreset (row : PresetRow) : CommunityPreset :=
  { id := row.id
    name := row.name
    description := row.description
    category_id := row.category_id
    dyes := row.dyes
    tags := row.tags
    author_discord_id := row.author_discord_id
    author_name := row.author_name
    vote_count := row.vote_count
    status := row.status
    is_curated := row.is_curated == 1
    created_at := row.created_at
    updated_at := row.updated_at
    dye_signature :=
      match row.dye_signature with
      | some s => if s = "" then none else some s
      | none => none }

/-- Filter parameters of the listing endpoint (`PresetFilters` in
src/types.ts); absent query parameters are `none`. -/
structure PresetFilters where
  category : Option String := none
  search : Option String := none
  status : Option String := none
  sort : Option String := none
  page : Option Nat := none
  limit : Option Nat := none
  is_curated : Option Bool := none
deriving DecidableEq, Repr

/-- Response shape of the listing endpoint (`PresetListResponse`). -/
structure PresetListResponse where
  presets : List CommunityPreset
  total : Nat
  page : Nat
  limit : Nat
  has_more : Bool
deriving DecidableEq, Repr

/-- Contiguous-sublist test on character lists. -/
def charListInfixOf (needle : List Char) : List Char → Bool
  | [] => needle.isEmpty
  | c :: rest => needle.isPrefixOf (c :: rest) || charListInfixOf needle rest

/-- One `LIKE '%pattern%'` comparison: case-insensitive (ASCII) substring
test, modelling SQLite's default LIKE on the patterns this route builds. -/
def likeContains (hay needle : String) : Bool :=
  charListInfixOf ((jsToLower needle).toList) ((jsToLower hay).toList)

/-- The WHERE clause predicate built by `getPresets`: always `status = ?`,
then optional `category_id = ?`, `(name LIKE ? OR description LIKE ? OR
tags LIKE ?)` and `is_curated = ?` conditions. The `category`/`search`
conditions are added only when the filter value is truthy (JavaScript
`if (category)` / `if (search)`), so an empty string adds no condition. -/
def matchesFilters (status : String) (category search : Option String)
    (is_curated : Option Bool) (r : PresetRow) : Bool :=
  r.status == status &&
  (match category with
   | some c => if c = "" then true else r.category_id == c
   | none => true) &&
  (match search with
   | some s =>
     if s = "" then true
     else likeContains r.name s || likeContains r.description s ||
       likeContains (jsonStrList r.tags) s
   | none => true) &&
  (match is_curated with
   | some b => r.is_curated == (if b then 1 else 0)
   | none => true)

/-- The ORDER BY comparator chosen by `getPresets`' `switch (sort)`:
`recent` is `created_at DESC`, `name` is `name ASC`, anything else
(including the default `popular`) is `vote_count DESC, created_at DESC`. -/
def orderLe (sort : String) (a b : PresetRow) : Bool :=
  match sort with
  | "recent" => textLe b.created_at a.created_at
  | "name" => textLe a.name b.name
  | _ => b.vote_count < a.vote_count ||
      (a.vote_count == b.vote_count && textLe b.created_at a.created_at)

/-- SQL ORDER BY applied to the filtered rows. The list is sorted into an
order satisfying the comparator; ties are resolved deterministically in
the model (SQLite leaves them unspecified). -/
def sortRows (sort : String) (rows : List PresetRow) : List PresetRow :=
  List.insertionSort (fun a b => orderLe sort a b = true) rows

/-- Embeds `getPresets` (src/services/preset-service.ts): destructured
defaults `status = 'approved'`, `sort = 'popular'`, `page = 1`,
`limit = 20`; COUNT of the filtered rows; then `LIMIT ? OFFSET ?` over the
ordered rows with `offset = (page - 1) * limit`. -/
def getPresets (db : Db) (filters : PresetFilters) : PresetListResponse :=
  let status := filters.status.getD "approved"
  let sort := filters.sort.getD "popular"
  let page := filters.page.getD 1
  let limit := filters.limit.getD 20
  let filtered := db.presets.filter
    (matchesFilters status filters.category filters.search filters.is_curated)
  let total := filtered.length
  let offset := (page - 1) * limit
  let rows := (List.drop offset (sortRows sort filtered)).take limit
  { presets := rows.map rowToPreset
    total := total
    page := page
    limit := limit
    has_more := decide (offset + rows.length < total) }

/-- Embeds `getFeaturedPresets`: `WHERE status = 'approved' ORDER BY
vote_count DESC, created_at DESC LIMIT 10`. -/
def getFeaturedPresets (db : Db) : List CommunityPreset :=
  ((sortRows "popular" (db.presets.filter (fun r => r.status == "approved"))).take 10).map
    rowToPreset

/-- Embeds `getPresetById`: `SELECT * FROM presets WHERE id = ?`,
`first()`. -/
def getPresetById (db : Db) (id : String) : Option CommunityPreset :=
  (db.presets.find? (fun r => r.id == id)).map rowToPreset

/-- Embeds `findDuplicatePreset`: computes the submitted dyes' signature
and fetches the first row with `dye_signature = ?` and
`status IN ('approved', 'pending')`. -/
def findDuplicatePreset (db : Db) (dyes : List Int) : Option CommunityPreset :=
  let signature := generateDyeSignature dyes
  (db.presets.find? (fun r =>
    r.dye_signature == some signature &&
    (r.status == "approved" || r.status == "pending"))).map rowToPreset

/-- Submission payload (`PresetSubmission` in src/types.ts). -/
structure PresetSubmission where
  name : String
  description : String
  category_id : String
  dyes : List Int
  tags : List String
deriving DecidableEq, Repr

/-- Embeds `createPreset`: INSERTs a row with `vote_count = 0`,
`is_curated = 0`, the computed dye signature and the given status, and
returns the fully populated entity. `id` (from `crypto.randomUUID()`) and
`now` (from `new Date().toISOString()`) are passed in. -/
def createPreset (db : Db) (submission : PresetSubmission)
    (authorDiscordId authorName status id now : String) : CommunityPreset × Db :=
  let dyeSignature := generateDyeSignature submission.dyes
  let row : PresetRow :=
    { id := id
      name := submission.name
      description := submission.description
      category_id := submission.category_id
      dyes := submission.dyes
      tags := submission.tags
      author_discord_id := some authorDiscordId
      author_name := some authorName
      vote_count := 0
      status := status
      is_curated := 0
      created_at := now
      updated_at := now
      dye_signature := some dyeSignature }
  ({ id := id
     name := submission.name
     description := submission.description
     category_id := submission.category_id
     dyes := submission.dyes
     tags := submission.tags
     author_discord_id := some authorDiscordId
     author_name := some authorName
     vote_count := 0
     status := status
     is_curated := false
     created_at := now
     updated_at := now
     dye_signature := some dyeSignature },
   { db with presets := db.presets ++ [row] })

/-- Embeds `updatePresetStatus`: an unconditional
`UPDATE presets SET status = ?, updated_at = ? WHERE id = ?` followed by
`getPresetById`. Note the UPDATE has no condition on the current status. -/
def updatePresetStatus (db : Db) (id status now : String) :
    Option CommunityPreset × Db :=
  let db' : Db :=
    { db with presets := db.presets.map (fun r =>
        if r.id == id then { r with status := status, updated_at := now } else r) }
  (getPresetById db' id, db')

/-- Result shape of the rate limiter (`RateLimitResult` in src/types.ts);
`resetAt` is the ISO string of the `Date` the code returns. -/
structure RateLimitResult where
  allowed : Bool
  remaining : Int
  resetAt : String
deriving DecidableEq, Repr

/-- Embeds `checkSubmissionRateLimit` (rate-limit service): counts the
user's preset rows with `created_at >= today AND created_at < tomorrow`,
where `today` is the start of the current UTC day and `tomorrow` is
`today + 24h` (both derived from the clock by the code and passed in
here); `allowed = count < 10`, `remaining = max(0, 10 - count)`,
`resetAt = tomorrow`. The `result?.count || 0` coalescing is the
identity here because COUNT always yields a row and `0 || 0 = 0`. -/
def checkSubmissionRateLimit (db : Db) (userDiscordId today tomorrow : String) :
    RateLimitResult :=
  let submissionsToday : Int :=
    ((db.presets.filter (fun r =>
      r.author_discord_id == some userDiscordId &&
      textLe today r.created_at && textLt r.created_at tomorrow)).length : Int)
  { allowed := decide (submissionsToday < 10)
    remaining := max 0 (10 - submissionsToday)
    resetAt := tomorrow }

/-- Response shape of the vote operations (`VoteResponse` in
src/types.ts); optional fields absent from a given return site are
`none`. -/
structure VoteResponse where
  success : Bool
  new_vote_count : Int
  already_voted : Option Bool := none
  error : Option String := none
deriving DecidableEq, Repr

/-- The `SELECT vote_count FROM presets WHERE id = ?` read followed by
`?.vote_count || 0` that both vote handlers perform. -/
def readVoteCount (db : Db) (presetId : String) : Int :=
  jsOrInt ((db.presets.find? (fun r => r.id == presetId)).map (fun r => r.vote_count)) 0

/-- Whether a vote row for `(presetId, userDiscordId)` exists
(`SELECT 1 FROM votes WHERE preset_id = ? AND user_discord_id = ?`). -/
def voteExists (db : Db) (presetId userDiscordId : String) : Bool :=
  db.votes.any (fun v => v.preset_id == presetId && v.user_discord_id == userDiscordId)

/-- Embeds `addVote` (votes handler): if a vote row already exists,
report `already_voted: true` with the current count and change nothing;
otherwise atomically INSERT the vote row and
`UPDATE ... SET vote_count = vote_count + 1`, then re-read the count
(`?.vote_count || 1`). The batch is atomic in the store; the model takes
the success path of the transaction. -/
def addVote (db : Db) (presetId userDiscordId now : String) : VoteResponse × Db :=
  if voteExists db presetId userDiscordId then
    ({ success := false
       already_voted := some true
       new_vote_count := readVoteCount db presetId }, db)
  else
    let db' : Db :=
      { presets := db.presets.map (fun r =>
          if r.id == presetId then
            { r with vote_count := r.vote_count + 1, updated_at := now }
          else r)
        votes := db.votes ++ [{ preset_id := presetId
                                user_discord_id := userDiscordId
                                created_at := now }] }
    ({ success := true
       new_vote_count :=
         jsOrInt ((db'.presets.find? (fun r => r.id == presetId)).map
           (fun r => r.vote_count)) 1 }, db')

/-- Embeds `removeVote` (votes handler): if no vote row exists, report
`already_voted: false` with the current count and change nothing;
otherwise atomically DELETE the vote row and
`UPDATE ... SET vote_count = MAX(0, vote_count - 1)`, then re-read the
count. -/
def removeVote (db : Db) (presetId userDiscordId now : String) : VoteResponse × Db :=
  if !voteExists db presetId userDiscordId then
    ({ success := false
       already_voted := some false
       new_vote_count := readVoteCount db presetId }, db)
  else
    let db' : Db :=
      { presets := db.presets.map (fun r =>
          if r.id == presetId then
            { r with vote_count := max 0 (r.vote_count - 1), updated_at := now }
          else r)
        votes := db.votes.filter (fun v =>
          !(v.preset_id == presetId && v.user_discord_id == userDiscordId)) }
    ({ success := true
       new_vote_count := readVoteCount db' presetId }, db')

/-- Transient moderation result (`ModerationResult` in src/types.ts).
`method` is the TypeScript string union `'local' | 'perspective' | 'all'`
("perspective" is the code's tag for the external classifier stage). -/
structure ModerationResult where
  passed : Bool
  flaggedField : Option String := none
  flaggedReason : Option String := none
  method : String
  scores : Option (List (String × Rat)) := none
deriving DecidableEq, Repr

/-- Regex `\w`: ASCII letters, digits, underscore. -/
def isWordChar (c : Char) : Bool := c.isAlphanum || c == '_'

/-- Word-char test on an optional character, treating out-of-bounds as
non-word. -/
def optWordChar : Option Char → Bool
  | some c => isWordChar c
  | none => false

/-- Regex `\b`: a boundary sits between two (possibly virtual) positions
whose word-char-ness differs. -/
def isBoundary (a b : Option Char) : Bool := optWordChar a != optWordChar b

/-- Does the literal pattern `w` match at the start of `t`, with `\b`
required on both sides? `prev` is the character just before this
position. -/
def matchHere (prev : Option Char) (w t : List Char) : Bool :=
  match w with
  | [] => isBoundary prev t.head?
  | c :: _ =>
    w.isPrefixOf t && isBoundary prev (some c) &&
      isBoundary w.getLast? (t.drop w.length).head?

/-- Scan `t` for a position where `matchHere` succeeds. -/
def testFrom (prev : Option Char) (w : List Char) : List Char → Bool
  | [] => matchHere prev w []
  | c :: rest => matchHere prev w (c :: rest) || testFrom (some c) w rest

/-- Embeds `new RegExp('\\b' + escapeRegex(word) + '\\b', 'i').test(text)`
for an escaped (hence literal) pattern: word-boundary-delimited substring
search. Both the pattern and the text the code tests are already
lower-cased, which subsumes the `i` flag on this ASCII data. -/
def wordBoundaryTest (w t : String) : Bool := testFrom none w.toList t.toList

/-- Embeds `checkLocalFilter` (src/services/moderation-service.ts),
parametric in the flattened profanity word list. The compiled pattern
list is built at module load from `profanityLists`; of its six locale
lists only `en` is populated, and that file is outside the sources here,
so `words` stands for the flattened list, whatever it contains. The
filter tests each pattern against the lower-cased `name + ' ' +
description`; on the first hit it attributes the flag to `name` when the
pattern also matches the lower-cased name, else to `description`. -/
def checkLocalFilter (words : List String) (name description : String) :
    Option ModerationResult :=
  let textToCheck := jsToLower (name ++ " " ++ description)
  let nameLower := jsToLower name
  match words.find? (fun w => wordBoundaryTest (jsToLower w) textToCheck) with
  | some w =>
    some { passed := false
           flaggedField :=
             some (if wordBoundaryTest (jsToLower w) nameLower then "name"
               else "description")
           flaggedReason := some "Contains prohibited content"
           method := "local" }
  | none => none

/-- Outcome of the single `fetch` to the Perspective endpoint, as the
calling code can observe it: the request threw, the response was
non-success (`!response.ok`), the JSON payload did not have the expected
shape (property access throws), or a well-formed score payload arrived.
Each attribute score is optional, as in the API response type. -/
inductive PerspectiveFetch where
  | netError
  | httpError (status : Nat)
  | malformed
  | ok (toxicity severeToxicity identityAttack insult profanity : Option Rat)
deriving DecidableEq, Repr

/-- The score record `checkWithPerspective` builds: each requested
attribute's `summaryScore.value || 0`, in the object-literal insertion
order the subsequent `Object.entries` loop iterates in. -/
def perspectiveScores (t s i ins p : Option Rat) : List (String × Rat) :=
  [("toxicity", t.getD 0), ("severeToxicity", s.getD 0),
   ("identityAttack", i.getD 0), ("insult", ins.getD 0),
   ("profanity", p.getD 0)]

/-- JavaScript `Math.round`: round half toward positive infinity. -/
def jsRound (q : Rat) : Int := (q + 1/2).floor

/-- The threshold constant of `checkWithPerspective` (0.7 = 70%). -/
def perspectiveThreshold : Rat := 7/10

/-- Embeds `checkWithPerspective` (src/services/moderation-service.ts).
Returns `none` ("no verdict") when the API key is unconfigured (JS falsy,
so also when it is the empty string), when the network call throws, when
the response is non-success, or when the payload is malformed. Otherwise
it flags on the first attribute whose score is at or above the 0.7
threshold, and passes with the score record when none is. The posted
text does not influence the modelled outcome and is carried by the
`PerspectiveFetch` parameter. -/
def checkWithPerspective (apiKey : Option String) (res : PerspectiveFetch) :
    Option ModerationResult :=
  match apiKey with
  | none => none
  | some key =>
    if key = "" then none
    else
      match res with
      | .netError => none
      | .httpError _ => none
      | .malformed => none
      | .ok t s i ins p =>
        let scores := perspectiveScores t s i ins p
        match scores.find? (fun kv => decide (perspectiveThreshold ≤ kv.2)) with
        | some kv =>
          some { passed := false
                 flaggedField := some "content"
                 flaggedReason := some ("High " ++ kv.1 ++ " score detected (" ++
                   toString (jsRound (kv.2 * 100)) ++ "%)")
                 method := "perspective"
                 scores := some scores }
        | none => some { passed := true, method := "perspective", scores := some scores }

/-- The tail of `moderateContent` after the local stage found nothing to
block: consult Perspective; a failed external verdict is returned as-is,
otherwise pass with `method` `'all'` when an external verdict exists and
`'local'` when it does not. -/
def moderateAfterLocal (apiKey : Option String) (res : PerspectiveFetch) :
    ModerationResult :=
  match checkWithPerspective apiKey res with
  | some r =>
    if r.passed then { passed := true, method := "all", scores := r.scores } else r
  | none => { passed := true, method := "local", scores := none }

/-- Embeds `moderateContent` (src/services/moderation-service.ts): the
local filter runs first and short-circuits on a failed verdict
(`if (localResult && !localResult.passed) return localResult`); only then
is the external classifier consulted. -/
def moderateContent (words : List String) (name description : String)
    (apiKey : Option String) (res : PerspectiveFetch) : ModerationResult :=
  match checkLocalFilter words name description with
  | some r => if !r.passed then r else moderateAfterLocal apiKey res
  | none => moderateAfterLocal apiKey res

/-- The category whitelist of `validateSubmission` (presets handler). -/
def validCategories : List String :=
  ["jobs", "grand-companies", "seasons", "events", "aesthetics", "community"]

/-- Embeds `validateSubmission` (presets handler): returns the first
validation error message, or `none` for a valid submission. The
`Array.isArray` / `typeof` guards are enforced by the model's types. -/
def validateSubmission (body : PresetSubmission) : Option String :=
  if body.name.length < 2 ∨ body.name.length > 50 then
    some "Name must be 2-50 characters"
  else if body.description.length < 10 ∨ body.description.length > 200 then
    some "Description must be 10-200 characters"
  else if !(validCategories.contains body.category_id) then
    some "Invalid category"
  else if body.dyes.length < 2 ∨ body.dyes.length > 5 then
    some "Must include 2-5 dyes"
  else if !(body.dyes.all (fun id => 0 < id)) then
    some "Invalid dye IDs"
  else if body.tags.length > 10 then
    some "Maximum 10 tags allowed"
  else if body.tags.any (fun tag => tag.length > 30) then
    some "Each tag must be a string of max 30 characters"
  else
    none

/-- The disjoint response shapes of `POST /api/v1/presets` (after the
auth and body-parse guards, which are outside this core). -/
inductive SubmitResponse where
  | validationError (message : String)
  | duplicateFound (duplicate : CommunityPreset) (vote_added : Bool)
  | created (preset : CommunityPreset) (moderation_status : String)
deriving DecidableEq, Repr

/-- Discriminator for the 201-Created response shape. -/
def SubmitResponse.isCreated : SubmitResponse → Bool
  | .created _ _ => true
  | _ => false

/-- Embeds the `presetsRouter.post('/')` submission handler (presets
handler): validate; look up a duplicate by dye signature and short-circuit
into a vote on it; otherwise moderate the text, derive the status
(`approved` when moderation passed, else `pending`), create the preset and
self-vote. The flagged-content notification is a fire-and-forget log with
no effect on the response or the store. Note the handler performs no
rate-limit check. -/
def presetsRouterPost (db : Db) (userDiscordId : String) (userName : Option String)
    (body : PresetSubmission) (words : List String) (apiKey : Option String)
    (res : PerspectiveFetch) (newId now : String) : SubmitResponse × Db :=
  match validateSubmission body with
  | some msg => (.validationError msg, db)
  | none =>
    match findDuplicatePreset db body.dyes with
    | some duplicate =>
      let voteResult := addVote db duplicate.id userDiscordId now
      (.duplicateFound duplicate
        (voteResult.1.success && !(voteResult.1.already_voted.getD false)),
       voteResult.2)
    | none =>
      let moderationResult := moderateContent words body.name body.description apiKey res
      let status := if moderationResult.passed then "approved" else "pending"
      let createResult := createPreset db body userDiscordId
        (jsOrStr userName "Unknown User") status newId now
      let selfVote := addVote createResult.2 createResult.1.id userDiscordId now
      (.created createResult.1 status, selfVote.2)

/-! ### Helper lemmas (shared) -/

/-- JavaScript `x || 0` on a present number is the identity. -/
theorem jsOrInt_some_zero (x : Int) : jsOrInt (some x) 0 = x := by
  unfold jsOrInt
  by_cases h : x = 0
  · simp [h]
  · simp [h]

/-- The signature is invariant under permutation of the dye list: sorting
a permutation produces the same sorted list. -/
theorem dyeSignature_congr {l₁ l₂ : List Int} (h : l₁.Perm l₂) :
    generateDyeSignature l₁ = generateDyeSignature l₂ := by
  unfold generateDyeSignature
  have hs : List.insertionSort (· ≤ ·) l₁ = List.insertionSort (· ≤ ·) l₂ :=
    List.eq_of_perm_of_sorted
      ((List.perm_insertionSort _ l₁).trans (h.trans (List.perm_insertionSort _ l₂).symm))
      (List.sorted_insertionSort _ l₁) (List.sorted_insertionSort _ l₂)
  rw [hs]

/-- List `find?` commutes with `map`. -/
theorem find?_map_comm {α β : Type} (f : α → β) (p : β → Bool) (l : List α) :
    (l.map f).find? p = (l.find? (fun a => p (f a))).map f := by
  induction l with
  | nil => rfl
  | cons a t ih => simp only [List.map_cons, List.find?]; split <;> simp_all

/-- Transport membership of an image value along equal mapped lists. -/
theorem exists_mem_of_map_eq {α β : Type} {f : α → β} {l₁ l₂ : List α}
    (h : l₁.map f = l₂.map f) {x : β} (hx : ∃ a ∈ l₁, f a = x) :
    ∃ b ∈ l₂, f b = x := by
  obtain ⟨a, ha, hfa⟩ := hx
  have : x ∈ l₂.map f := by
    rw [← h]
    exact hfa ▸ List.mem_map_of_mem f ha
  simpa using this

/-- Voting only ever touches `vote_count`/`updated_at` of existing
preset rows: the (id, status) view of the presets table is unchanged. -/
theorem addVote_pairs (db : Db) (pid uid now : String) :
    ((addVote db pid uid now).2).presets.map (fun r => (r.id, r.status)) =
      db.presets.map (fun r => (r.id, r.status)) := by
  unfold addVote
  split
  · rfl
  · simp only [List.map_map]
    apply List.map_congr_left
    intro r _
    simp only [Function.comp_apply]
    split <;> rfl

/-- Voting never inserts or deletes a preset row. -/
theorem addVote_presets_length (db : Db) (pid uid now : String) :
    ((addVote db pid uid now).2).presets.length = db.presets.length := by
  have h := congrArg List.length (addVote_pairs db pid uid now)
  simpa using h

/-! ### C4 — dye signature order independence -/

/-- C4 counterexample: `[3,3,5]` and `[3,5]` are equal as sets (the claim
says multiplicity must not matter) yet their signatures differ byte-wise,
so signatures are not a function of the dye set alone. -/
theorem dyeSignature_set_equal_not_sufficient :
    ([3, 3, 5] : List Int).toFinset = ([3, 5] : List Int).toFinset ∧
      generateDyeSignature [3, 3, 5] ≠ generateDyeSignature [3, 5] := by
  constructor
  · decide
  · decide

/-- C4 (amended): the dye signature is order-independent — permuting the
dye list (equivalently, keeping the same multiset of dyes) produces a
byte-identical signature. Lists equal merely as sets but with different
multiplicities may produce different signatures. -/
theorem dyeSignature_perm_invariant (l₁ l₂ : List Int) (h : l₁.Perm l₂) :
    generateDyeSignature l₁ = generateDyeSignature l₂ :=
  dyeSignature_congr h

/-- C4 witness: the spec's own example pair `[5,3,9]` / `[9,5,3]`. -/
theorem dyeSignature_perm_invariant_witness :
    ([5, 3, 9] : List Int).Perm [9, 5, 3] ∧
      generateDyeSignature [5, 3, 9] = generateDyeSignature [9, 5, 3] :=
  ⟨by decide, dyeSignature_perm_invariant [5, 3, 9] [9, 5, 3] (by decide)⟩

/-! ### C2 — the status state machine -/

/-- A concrete rejected preset row for the C2 counterexample. -/
def rejectedRow : PresetRow :=
  { id := "p1"
    name := "Sample"
    description := "sample description"
    category_id := "jobs"
    dyes := [1, 2]
    tags := []
    author_discord_id := some "u1"
    author_name := some "Author"
    vote_count := 0
    status := "rejected"
    is_curated := 0
    created_at := "2025-01-01T00:00:00.000Z"
    updated_at := "2025-01-01T00:00:00.000Z"
    dye_signature := some "[1,2]" }

/-- C2 counterexample: `updatePresetStatus` applies a transition out of
`rejected` — the requested status is written unconditionally, so
`rejected` is not terminal at this operation. -/
theorem updatePresetStatus_rejected_not_terminal :
    ((updatePresetStatus { presets := [rejectedRow], votes := [] } "p1" "approved"
        "2025-01-02T00:00:00.000Z").1).map (fun p => p.status) = some "approved" ∧
      ("approved" : String) ≠ "rejected" := by
  constructor
  · decide
  · decide

/-- C2 (amended): `updatePresetStatus` enforces no state machine: for any
existing preset and any requested status — in particular from a current
status of `rejected` — the update writes the requested status
unconditionally and returns the updated preset. -/
theorem updatePresetStatus_unconditional (db : Db) (id status now : String)
    (p : CommunityPreset) (hp : getPresetById db id = some p) :
    (∃ p', (updatePresetStatus db id status now).1 = some p' ∧ p'.status = status) ∧
      (∀ r ∈ (updatePresetStatus db id status now).2.presets,
        r.id = id → r.status = status) := by
  constructor
  · unfold getPresetById at hp
    obtain ⟨row, hrow, hmap⟩ : ∃ row, db.presets.find? (fun r => r.id == id) = some row ∧
        rowToPreset row = p := by
      cases hfind : db.presets.find? (fun r => r.id == id) with
      | none => rw [hfind] at hp; simp at hp
      | some row => rw [hfind] at hp; exact ⟨row, rfl, by simpa using hp⟩
    refine ⟨rowToPreset { row with status := status, updated_at := now }, ?_, rfl⟩
    unfold updatePresetStatus getPresetById
    simp only
    rw [find?_map_comm]
    have hpred : (fun r : PresetRow =>
        (if r.id == id then { r with status := status, updated_at := now } else r).id == id) =
        (fun r : PresetRow => r.id == id) := by
      funext r
      split <;> rfl
    rw [hpred, hrow]
    have hid := List.find?_some (p := fun r : PresetRow => r.id == id) hrow
    simp only at hid
    simp only [Option.map_some']
    rw [if_pos hid]
  · intro r hr hrid
    unfold updatePresetStatus at hr
    simp only [List.mem_map] at hr
    obtain ⟨a, _, ha⟩ := hr
    by_cases hcase : (a.id == id) = true
    · rw [if_pos hcase] at ha
      rw [← ha]
    · rw [if_neg hcase] at ha
      subst ha
      exact absurd (beq_iff_eq.mpr hrid) hcase

/-- C2 witness: the amended behaviour evaluated on the concrete rejected
preset. -/
theorem updatePresetStatus_unconditional_witness :
    getPresetById { presets := [rejectedRow], votes := [] } "p1" =
        some (rowToPreset rejectedRow) ∧
      ((∃ p', (updatePresetStatus { presets := [rejectedRow], votes := [] } "p1" "approved"
          "2025-01-02T00:00:00.000Z").1 = some p' ∧ p'.status = "approved") ∧
        (∀ r ∈ (updatePresetStatus { presets := [rejectedRow], votes := [] } "p1" "approved"
            "2025-01-02T00:00:00.000Z").2.presets, r.id = "p1" → r.status = "approved")) :=
  ⟨by decide,
   updatePresetStatus_unconditional { presets := [rejectedRow], votes := [] } "p1"
     "approved" "2025-01-02T00:00:00.000Z" (rowToPreset rejectedRow) (by decide)⟩

/-! ### C3 — idempotent voting -/

/-- C3: a repeated vote from the same voter is a pure no-op: it reports
`already_voted` with the current count, sets no error, and leaves the
whole store — vote rows and `vote_count` alike — untouched; and the
reported count is exactly the preset's stored `vote_count`. -/
theorem addVote_idempotent (db : Db) (pid uid now : String)
    (h : ∃ v ∈ db.votes, v.preset_id = pid ∧ v.user_discord_id = uid) :
    addVote db pid uid now =
      ({ success := false
         new_vote_count := readVoteCount db pid
         already_voted := some true
         error := none }, db) ∧
      (∀ p, getPresetById db pid = some p → readVoteCount db pid = p.vote_count) := by
  have hex : voteExists db pid uid = true := by
    unfold voteExists
    rw [List.any_eq_true]
    obtain ⟨v, hv, h1, h2⟩ := h
    exact ⟨v, hv, by simp [h1, h2]⟩
  constructor
  · unfold addVote
    rw [if_pos hex]
  · intro p hp
    unfold getPresetById at hp
    rw [Option.map_eq_some'] at hp
    obtain ⟨row, hrow, hp⟩ := hp
    unfold readVoteCount
    rw [hrow]
    simp only [Option.map_some']
    rw [jsOrInt_some_zero, ← hp]
    rfl

/-- An approved preset row with five votes, for concrete witnesses. -/
def votedRow : PresetRow :=
  { rejectedRow with
    id := "q1"
    status := "approved"
    vote_count := 5 }

/-- An existing vote row for `votedRow` by user `u1`. -/
def existingVote : VoteRow :=
  { preset_id := "q1"
    user_discord_id := "u1"
    created_at := "2025-01-01T01:00:00.000Z" }

/-- A store where user `u1` has already voted for preset `q1`. -/
def votedDb : Db :=
  { presets := [votedRow]
    votes := [existingVote] }

/-- C3 witness: a store with one preset (count 5) and an existing vote by
the same voter. -/
theorem addVote_idempotent_witness :
    (∃ v ∈ votedDb.votes, v.preset_id = "q1" ∧ v.user_discord_id = "u1") ∧
      addVote votedDb "q1" "u1" "2025-01-03T00:00:00.000Z" =
        ({ success := false
           new_vote_count := readVoteCount votedDb "q1"
           already_voted := some true
           error := none }, votedDb) := by
  refine ⟨⟨existingVote, List.mem_singleton_self _, rfl, rfl⟩, ?_⟩
  exact (addVote_idempotent votedDb "q1" "u1" "2025-01-03T00:00:00.000Z"
    ⟨existingVote, List.mem_singleton_self _, rfl, rfl⟩).1

/-! ### C8 — unvote mirrors vote -/

/-- C8: `removeVote` is the safe mirror of `addVote`: with no existing
vote row it reports `already_voted = false` (not an error) and leaves the
store untouched; with one it deletes every matching vote row and writes
`MAX(0, vote_count - 1)` to the preset, so a non-negative `vote_count`
stays non-negative. -/
theorem removeVote_mirror_spec (db : Db) (pid uid now : String) :
    ((¬ ∃ v ∈ db.votes, v.preset_id = pid ∧ v.user_discord_id = uid) →
      removeVote db pid uid now =
        ({ success := false
           new_vote_count := readVoteCount db pid
           already_voted := some false
           error := none }, db)) ∧
    ((∃ v ∈ db.votes, v.preset_id = pid ∧ v.user_discord_id = uid) →
      (∀ v ∈ (removeVote db pid uid now).2.votes,
        ¬(v.preset_id = pid ∧ v.user_discord_id = uid)) ∧
      (∀ r ∈ db.presets, r.id = pid →
        ∃ r' ∈ (removeVote db pid uid now).2.presets,
          r'.id = pid ∧ r'.vote_count = max 0 (r.vote_count - 1))) ∧
    ((∀ r ∈ db.presets, 0 ≤ r.vote_count) →
      ∀ r' ∈ (removeVote db pid uid now).2.presets, 0 ≤ r'.vote_count) := by
  have hlift : ∀ v : VoteRow,
      (v.preset_id == pid && v.user_discord_id == uid) = true ↔
      (v.preset_id = pid ∧ v.user_discord_id = uid) := by
    intro v
    simp
  refine ⟨?_, ?_, ?_⟩
  · intro hno
    have hex : voteExists db pid uid = false := by
      unfold voteExists
      rw [Bool.eq_false_iff]
      intro hany
      rw [List.any_eq_true] at hany
      obtain ⟨v, hv, hpv⟩ := hany
      exact hno ⟨v, hv, (hlift v).mp hpv⟩
    unfold removeVote
    rw [hex]
    rfl
  · intro hyes
    have hex : voteExists db pid uid = true := by
      unfold voteExists
      rw [List.any_eq_true]
      obtain ⟨v, hv, hpv⟩ := hyes
      exact ⟨v, hv, (hlift v).mpr hpv⟩
    constructor
    · intro v hv
      unfold removeVote at hv
      rw [hex] at hv
      simp only [Bool.not_true, Bool.false_eq_true, if_false] at hv
      have hmem := List.mem_filter.mp hv
      intro hcontra
      have hfalse : (v.preset_id == pid && v.user_discord_id == uid) = false := by
        have h2 := hmem.2
        rw [Bool.not_eq_true'] at h2
        exact h2
      have htrue := (hlift v).mpr hcontra
      rw [htrue] at hfalse
      exact absurd hfalse (by decide)
    · intro r hr hrid
      unfold removeVote
      rw [hex]
      simp only [Bool.not_true, Bool.false_eq_true, if_false]
      refine ⟨{ r with vote_count := max 0 (r.vote_count - 1), updated_at := now },
        ?_, hrid, rfl⟩
      have hbeq : (r.id == pid) = true := beq_iff_eq.mpr hrid
      exact List.mem_map.mpr ⟨r, hr, by simp [hbeq]⟩
  · intro hnn r' hr'
    unfold removeVote at hr'
    by_cases hex : voteExists db pid uid = true
    · rw [hex] at hr'
      simp only [Bool.not_true, Bool.false_eq_true, if_false] at hr'
      simp only [List.mem_map] at hr'
      obtain ⟨a, ha, hfa⟩ := hr'
      by_cases hcase : (a.id == pid) = true
      · rw [if_pos hcase] at hfa
        rw [← hfa]
        simp only [le_max_iff]
        left
        rfl
      · rw [if_neg hcase] at hfa
        rw [← hfa]
        exact hnn a ha
    · rw [Bool.not_eq_true] at hex
      rw [hex] at hr'
      simp only [Bool.not_false, if_true] at hr'
      exact hnn r' hr'

/-- A store where nobody has voted for preset `q1`. -/
def unvotedDb : Db :=
  { presets := [votedRow]
    votes := [] }

/-- C8 witness: both branches evaluated on concrete stores — no vote row
(no-op report) and an existing vote row (deletion with floored
decrement). -/
theorem removeVote_mirror_spec_witness :
    (removeVote unvotedDb "q1" "u1" "2025-01-04T00:00:00.000Z" =
      ({ success := false
         new_vote_count := readVoteCount unvotedDb "q1"
         already_voted := some false
         error := none }, unvotedDb)) ∧
    (∀ v ∈ (removeVote votedDb "q1" "u1" "2025-01-04T00:00:00.000Z").2.votes,
      ¬(v.preset_id = "q1" ∧ v.user_discord_id = "u1")) ∧
    (∀ r' ∈ (removeVote votedDb "q1" "u1" "2025-01-04T00:00:00.000Z").2.presets,
      0 ≤ r'.vote_count) := by
  have h1 := (removeVote_mirror_spec unvotedDb "q1" "u1" "2025-01-04T00:00:00.000Z").1
    (by intro hcontra; obtain ⟨v, hv, _⟩ := hcontra; simp [unvotedDb] at hv)
  have h2 := ((removeVote_mirror_spec votedDb "q1" "u1" "2025-01-04T00:00:00.000Z").2.1
    ⟨existingVote, List.mem_singleton_self _, rfl, rfl⟩).1
  have h3 := (removeVote_mirror_spec votedDb "q1" "u1" "2025-01-04T00:00:00.000Z").2.2
    (by intro r hr; simp [votedDb, votedRow, rejectedRow] at hr; simp [hr])
  exact ⟨h1, h2, h3⟩

/-! ### C10 — default listing shows approved presets only -/

/-- C10: with no status filter supplied, the listing defaults to
`status = 'approved'`, so every returned preset is approved; the featured
list is hard-filtered to `status = 'approved'` as well — pending,
rejected, flagged and hidden presets never appear in either. -/
theorem default_listing_approved_only (db : Db) (filters : PresetFilters)
    (hstatus : filters.status = none) :
    (∀ p ∈ (getPresets db filters).presets, p.status = "approved") ∧
      (∀ p ∈ getFeaturedPresets db, p.status = "approved") := by
  constructor
  · intro p hp
    unfold getPresets at hp
    rw [hstatus] at hp
    simp only [Option.getD_none] at hp
    simp only [List.mem_map] at hp
    obtain ⟨r, hr, hrp⟩ := hp
    have hr2 : r ∈ sortRows (filters.sort.getD "popular")
        (db.presets.filter
          (matchesFilters "approved" filters.category filters.search filters.is_curated)) :=
      List.drop_subset _ _ (List.take_subset _ _ hr)
    have hr3 : r ∈ db.presets.filter
        (matchesFilters "approved" filters.category filters.search filters.is_curated) :=
      (List.perm_insertionSort _ _).subset hr2
    have hr4 := (List.mem_filter.mp hr3).2
    unfold matchesFilters at hr4
    have hst : (r.status == "approved") = true := by
      simp only [Bool.and_eq_true] at hr4
      exact hr4.1.1.1
    rw [← hrp]
    exact beq_iff_eq.mp hst
  · intro p hp
    unfold getFeaturedPresets at hp
    simp only [List.mem_map] at hp
    obtain ⟨r, hr, hrp⟩ := hp
    have hr2 : r ∈ db.presets.filter (fun r => r.status == "approved") :=
      (List.perm_insertionSort _ _).subset (List.take_subset _ _ hr)
    have hst := (List.mem_filter.mp hr2).2
    rw [← hrp]
    exact beq_iff_eq.mp hst

/-- A store with one row in each status, for the C10 witness. -/
def mixedDb : Db :=
  { presets :=
      [votedRow,
       rejectedRow,
       { rejectedRow with id := "p2", status := "pending" },
       { rejectedRow with id := "p3", status := "flagged" },
       { rejectedRow with id := "p4", status := "hidden" }]
    votes := [] }

/-- C10 witness: the default listing of a store holding approved,
rejected, pending, flagged and hidden rows returns approved presets
only. -/
theorem default_listing_approved_only_witness :
    (({} : PresetFilters).status = none) ∧
      (∀ p ∈ (getPresets mixedDb {}).presets, p.status = "approved") ∧
      (∀ p ∈ getFeaturedPresets mixedDb, p.status = "approved") :=
  ⟨rfl, (default_listing_approved_only mixedDb {} rfl).1,
    (default_listing_approved_only mixedDb {} rfl).2⟩

/-! ### C5 — external unavailability never blocks a submission -/

/-- C5: when the local filter passes, every way the external stage can be
absent — key unconfigured (JS-falsy: missing or empty), network failure,
non-success response, malformed payload — yields the combined verdict
`passed = true, method = 'local'`; and when both stages run and every
score is below the threshold, the combined verdict is `passed = true,
method = 'all'` carrying the scores. -/
theorem moderation_degrades_to_local (words : List String) (n d : String)
    (apiKey : Option String) (res : PerspectiveFetch)
    (hlocal : checkLocalFilter words n d = none) :
    (((apiKey = none ∨ apiKey = some "") ∨ res = .netError ∨
        (∃ st, res = .httpError st) ∨ res = .malformed) →
      moderateContent words n d apiKey res =
        { passed := true
          method := "local"
          flaggedField := none
          flaggedReason := none
          scores := none }) ∧
    (∀ key t s i ins p, apiKey = some key → key ≠ "" → res = .ok t s i ins p →
      (∀ kv ∈ perspectiveScores t s i ins p, kv.2 < perspectiveThreshold) →
      moderateContent words n d apiKey res =
        { passed := true
          method := "all"
          flaggedField := none
          flaggedReason := none
          scores := some (perspectiveScores t s i ins p) }) := by
  constructor
  · intro hcase
    have hnone : checkWithPerspective apiKey res = none := by
      unfold checkWithPerspective
      rcases hcase with h | h
      · rcases h with h | h
        · subst h; rfl
        · subst h; rfl
      · cases apiKey with
        | none => rfl
        | some key =>
          rcases h with h | ⟨st, h⟩ | h <;> subst h <;> by_cases hk : key = "" <;>
            simp [hk]
    unfold moderateContent
    rw [hlocal]
    show moderateAfterLocal apiKey res = _
    unfold moderateAfterLocal
    rw [hnone]
  · intro key t s i ins p hkey hk hres hscores
    subst hkey
    subst hres
    have hfind : (perspectiveScores t s i ins p).find?
        (fun kv => decide (perspectiveThreshold ≤ kv.2)) = none := by
      rw [List.find?_eq_none]
      intro kv hkv
      simp only [decide_eq_true_eq]
      exact not_le.mpr (hscores kv hkv)
    have hsome : checkWithPerspective (some key) (.ok t s i ins p) =
        some { passed := true
               method := "perspective"
               scores := some (perspectiveScores t s i ins p) } := by
      unfold checkWithPerspective
      simp [hk, hfind]
    unfold moderateContent
    rw [hlocal]
    show moderateAfterLocal (some key) (.ok t s i ins p) = _
    unfold moderateAfterLocal
    rw [hsome]
    rfl

/-- C5 witness: an unreachable classifier degrades to the local-only
verdict, and a configured classifier whose scores are all zero yields the
passing `'all'` verdict. -/
theorem moderation_degrades_to_local_witness :
    checkLocalFilter [] "aa" "plain words" = none ∧
      moderateContent [] "aa" "plain words" none .netError =
        { passed := true
          method := "local"
          flaggedField := none
          flaggedReason := none
          scores := none } ∧
      moderateContent [] "aa" "plain words" (some "key") (.ok none none none none none) =
        { passed := true
          method := "all"
          flaggedField := none
          flaggedReason := none
          scores := some (perspectiveScores none none none none none) } := by
  refine ⟨rfl, ?_, ?_⟩
  · exact (moderation_degrades_to_local [] "aa" "plain words" none .netError rfl).1
      (Or.inl (Or.inl rfl))
  · refine (moderation_degrades_to_local [] "aa" "plain words" (some "key")
      (.ok none none none none none) rfl).2 "key" none none none none none rfl
      (by decide) rfl ?_
    intro kv hkv
    simp only [perspectiveScores, Option.getD_none] at hkv
    fin_cases hkv <;> norm_num [perspectiveThreshold]

/-! ### C9 — the local filter blocks listed terms with no external call -/

/-- C9 counterexample: the local filter's reason string is
`"Contains prohibited content"`, not the claimed `"prohibited content"`. -/
theorem localFilter_reason_label :
    (checkLocalFilter ["badword"] "badword hat" "plain stuff").map
        (fun r => r.flaggedReason) = some (some "Contains prohibited content") ∧
      some ("Contains prohibited content" : String) ≠ some "prohibited content" := by
  constructor
  · decide
  · decide

/-- C9 (amended): whenever some listed term matches the lower-cased
`name + ' ' + description` at word boundaries, the pipeline returns
`passed = false, method = 'local'` with reason
`"Contains prohibited content"`, attributing the flag to `name` when the
first matching term also matches the name and to `description`
otherwise; the verdict is identical for every external-classifier
configuration and outcome, i.e. the local stage decides without the
external call. -/
theorem localFilter_blocks_locally (words : List String) (n d w : String)
    (hw : w ∈ words)
    (hmatch : wordBoundaryTest (jsToLower w) (jsToLower (n ++ " " ++ d)) = true) :
    ∃ w' r, w' ∈ words ∧
      r = { passed := false
            flaggedField := some (if wordBoundaryTest (jsToLower w') (jsToLower n)
              then "name" else "description")
            flaggedReason := some "Contains prohibited content"
            method := "local"
            scores := none : ModerationResult } ∧
      checkLocalFilter words n d = some r ∧
      ∀ apiKey res, moderateContent words n d apiKey res = r := by
  cases hfind : words.find? (fun w => wordBoundaryTest (jsToLower w)
      (jsToLower (n ++ " " ++ d))) with
  | none =>
    exact absurd hmatch (List.find?_eq_none.mp hfind w hw)
  | some w' =>
    have hmem := List.mem_of_find?_eq_some hfind
    have hstep : checkLocalFilter words n d =
        some { passed := false
               flaggedField := some (if wordBoundaryTest (jsToLower w') (jsToLower n)
                 then "name" else "description")
               flaggedReason := some "Contains prohibited content"
               method := "local" } := by
      unfold checkLocalFilter
      simp only [hfind]
    refine ⟨w', _, hmem, rfl, hstep, ?_⟩
    intro apiKey res
    unfold moderateContent
    rw [hstep]
    rfl

/-- C9 witness: the term `badword`, listed, occurring in the name. -/
theorem localFilter_blocks_locally_witness :
    ("badword" : String) ∈ ["badword"] ∧
      wordBoundaryTest (jsToLower "badword")
        (jsToLower ("badword hat" ++ " " ++ "plain stuff")) = true ∧
      ∃ w' r, w' ∈ ["badword"] ∧
        r = { passed := false
              flaggedField := some (if wordBoundaryTest (jsToLower w')
                (jsToLower "badword hat") then "name" else "description")
              flaggedReason := some "Contains prohibited content"
              method := "local"
              scores := none : ModerationResult } ∧
        checkLocalFilter ["badword"] "badword hat" "plain stuff" = some r ∧
        ∀ apiKey res, moderateContent ["badword"] "badword hat" "plain stuff" apiKey res = r :=
  ⟨List.mem_singleton_self _, by decide,
    localFilter_blocks_locally ["badword"] "badword hat" "plain stuff" "badword"
      (List.mem_singleton_self _) (by decide)⟩

/-! ### More shared helpers: the flagged external verdict and the route -/

/-- With a configured key and a well-formed payload containing an
attribute at or above the threshold, `checkWithPerspective` returns the
flagged verdict built from the first such attribute. -/
theorem checkWithPerspective_flagged (key : String) (hk : key ≠ "")
    (t s i ins p : Option Rat) (attr : String) (v : Rat)
    (hfind : (perspectiveScores t s i ins p).find?
      (fun kv => decide (perspectiveThreshold ≤ kv.2)) = some (attr, v)) :
    checkWithPerspective (some key) (.ok t s i ins p) =
      some { passed := false
             flaggedField := some "content"
             flaggedReason := some ("High " ++ attr ++ " score detected (" ++
               toString (jsRound (v * 100)) ++ "%)")
             method := "perspective"
             scores := some (perspectiveScores t s i ins p) } := by
  unfold checkWithPerspective
  simp [hk, hfind]

/-- A failed external verdict becomes the combined verdict when the local
stage found nothing. -/
theorem moderateContent_external_fail (words : List String) (n d : String)
    (apiKey : Option String) (res : PerspectiveFetch) (r : ModerationResult)
    (hlocal : checkLocalFilter words n d = none)
    (hcwp : checkWithPerspective apiKey res = some r) (hrp : r.passed = false) :
    moderateContent words n d apiKey res = r := by
  unfold moderateContent
  rw [hlocal]
  show moderateAfterLocal apiKey res = r
  unfold moderateAfterLocal
  rw [hcwp]
  simp [hrp]

/-- The create branch of the submission route, spelled out: with a valid
body and no duplicate, the handler moderates, derives the status, creates
and self-votes. -/
theorem presetsRouterPost_creates (db : Db) (uid : String) (un : Option String)
    (body : PresetSubmission) (words : List String) (apiKey : Option String)
    (res : PerspectiveFetch) (nid now : String)
    (hval : validateSubmission body = none)
    (hdup : findDuplicatePreset db body.dyes = none) :
    presetsRouterPost db uid un body words apiKey res nid now =
      (.created (createPreset db body uid (jsOrStr un "Unknown User")
          (if (moderateContent words body.name body.description apiKey res).passed
            then "approved" else "pending") nid now).1
        (if (moderateContent words body.name body.description apiKey res).passed
          then "approved" else "pending"),
       (addVote (createPreset db body uid (jsOrStr un "Unknown User")
          (if (moderateContent words body.name body.description apiKey res).passed
            then "approved" else "pending") nid now).2
         (createPreset db body uid (jsOrStr un "Unknown User")
          (if (moderateContent words body.name body.description apiKey res).passed
            then "approved" else "pending") nid now).1.id uid now).2) := by
  simp only [presetsRouterPost, hval, hdup]

/-- The duplicate branch of the submission route, spelled out: with a
valid body and a duplicate found, the handler votes on the duplicate and
returns it without creating anything. -/
theorem presetsRouterPost_duplicate (db : Db) (uid : String) (un : Option String)
    (body : PresetSubmission) (words : List String) (apiKey : Option String)
    (res : PerspectiveFetch) (nid now : String) (dup : CommunityPreset)
    (hval : validateSubmission body = none)
    (hdup : findDuplicatePreset db body.dyes = some dup) :
    presetsRouterPost db uid un body words apiKey res nid now =
      (.duplicateFound dup ((addVote db dup.id uid now).1.success &&
          !((addVote db dup.id uid now).1.already_voted.getD false)),
       (addVote db dup.id uid now).2) := by
  simp only [presetsRouterPost, hval, hdup]

/-- The row `createPreset` inserts carries the requested id and status. -/
theorem createPreset_mem (db : Db) (submission : PresetSubmission)
    (a b st id now : String) :
    ∃ r ∈ (createPreset db submission a b st id now).2.presets,
      (r.id, r.status) = (id, st) :=
  ⟨_, List.mem_append_right _ (List.mem_singleton_self _), rfl⟩

/-- Creation adds exactly one row to the presets table. -/
theorem createPreset_length (db : Db) (submission : PresetSubmission)
    (a b st id now : String) :
    (createPreset db submission a b st id now).2.presets.length =
      db.presets.length + 1 := by
  simp [createPreset]

/-- When no vote row existed, `addVote` inserts exactly the new vote
row. -/
theorem addVote_inserts (db : Db) (pid uid now : String)
    (h : voteExists db pid uid = false) :
    ({ preset_id := pid, user_discord_id := uid, created_at := now } : VoteRow) ∈
      (addVote db pid uid now).2.votes := by
  unfold addVote
  rw [h]
  simp only [Bool.false_eq_true, if_false]
  exact List.mem_append_right _ (List.mem_singleton_self _)

/-! ### C6 — flagging by the external classifier -/

/-- C6 counterexample: the flagged verdict's `method` tag is the string
`"perspective"`, not the claimed `"external"`. -/
theorem perspective_method_label :
    (moderateContent [] "Nice name" "a nice description" (some "k")
        (.ok (some 1) none none none none)).method = "perspective" ∧
      ("perspective" : String) ≠ "external" ∧
      (moderateContent [] "Nice name" "a nice description" (some "k")
        (.ok (some 1) none none none none)).passed = false := by
  have hfind : (perspectiveScores (some 1) none none none none).find?
      (fun kv => decide (perspectiveThreshold ≤ kv.2)) = some ("toxicity", 1) := by
    norm_num [perspectiveScores, perspectiveThreshold, List.find?]
  have hcwp := checkWithPerspective_flagged "k" (by decide) (some 1) none none none none
    "toxicity" 1 hfind
  have hmod := moderateContent_external_fail [] "Nice name" "a nice description"
    (some "k") (.ok (some 1) none none none none) _ rfl hcwp rfl
  rw [hmod]
  exact ⟨rfl, by decide, rfl⟩

/-- C6 (amended): with the local stage clean, a configured key and a
payload whose score list contains an attribute at or above the 0.70
threshold, moderation fails with `method = "perspective"` (the code's tag
for the external classifier), `flaggedField = "content"` and a reason
naming the first flagged attribute and its rounded percentage; and such a
flagged submission still succeeds: the route creates the preset with
status `pending` (one new row) rather than raising an error. -/
theorem perspective_flagging_spec (words : List String) (key : String)
    (t s i ins p : Option Rat) (attr : String) (v : Rat) (db : Db) (uid : String)
    (un : Option String) (body : PresetSubmission) (nid now : String)
    (hk : key ≠ "")
    (hlocal : checkLocalFilter words body.name body.description = none)
    (hfind : (perspectiveScores t s i ins p).find?
      (fun kv => decide (perspectiveThreshold ≤ kv.2)) = some (attr, v)) :
    perspectiveThreshold ≤ v ∧
    moderateContent words body.name body.description (some key) (.ok t s i ins p) =
      { passed := false
        flaggedField := some "content"
        flaggedReason := some ("High " ++ attr ++ " score detected (" ++
          toString (jsRound (v * 100)) ++ "%)")
        method := "perspective"
        scores := some (perspectiveScores t s i ins p) } ∧
    (validateSubmission body = none → findDuplicatePreset db body.dyes = none →
      ∃ pr db',
        presetsRouterPost db uid un body words (some key) (.ok t s i ins p) nid now =
          (.created pr "pending", db') ∧
        pr.status = "pending" ∧
        (∃ r ∈ db'.presets, r.id = nid ∧ r.status = "pending") ∧
        db'.presets.length = db.presets.length + 1) := by
  have hcwp := checkWithPerspective_flagged key hk t s i ins p attr v hfind
  have hmod := moderateContent_external_fail words body.name body.description
    (some key) (.ok t s i ins p) _ hlocal hcwp rfl
  have hthr : perspectiveThreshold ≤ v := by
    have := List.find?_some hfind
    exact of_decide_eq_true this
  refine ⟨hthr, hmod, ?_⟩
  intro hval hdup
  have hroute := presetsRouterPost_creates db uid un body words (some key)
    (.ok t s i ins p) nid now hval hdup
  rw [hmod] at hroute
  refine ⟨_, _, hroute, rfl, ?_, ?_⟩
  · have hpairs := addVote_pairs
      (createPreset db body uid (jsOrStr un "Unknown User") "pending" nid now).2
      (createPreset db body uid (jsOrStr un "Unknown User") "pending" nid now).1.id
      uid now
    have hmem := exists_mem_of_map_eq hpairs.symm
      (createPreset_mem db body uid (jsOrStr un "Unknown User") "pending" nid now)
    obtain ⟨r, hr, hpair⟩ := hmem
    rw [Prod.mk.injEq] at hpair
    exact ⟨r, hr, hpair.1, hpair.2⟩
  · rw [addVote_presets_length]
    exact createPreset_length db body uid (jsOrStr un "Unknown User") "pending" nid now

/-- A minimal clean submission body for the moderation witnesses. -/
def flaggedBody : PresetSubmission :=
  { name := "Nice name"
    description := "a nice description"
    category_id := "jobs"
    dyes := [4, 6]
    tags := [] }

/-- C6 witness: toxicity score 1 against an empty store — the verdict is
the flagged perspective verdict and the submission is created pending. -/
theorem perspective_flagging_spec_witness :
    (("k" : String) ≠ "") ∧
      checkLocalFilter [] flaggedBody.name flaggedBody.description = none ∧
      validateSubmission flaggedBody = none ∧
      findDuplicatePreset { presets := [], votes := [] } flaggedBody.dyes = none ∧
      perspectiveThreshold ≤ (1 : Rat) ∧
      moderateContent [] flaggedBody.name flaggedBody.description (some "k")
          (.ok (some 1) none none none none) =
        { passed := false
          flaggedField := some "content"
          flaggedReason := some ("High " ++ "toxicity" ++ " score detected (" ++
            toString (jsRound ((1 : Rat) * 100)) ++ "%)")
          method := "perspective"
          scores := some (perspectiveScores (some 1) none none none none) } ∧
      (∃ pr db',
        presetsRouterPost { presets := [], votes := [] } "u1" (some "Alice") flaggedBody
            [] (some "k") (.ok (some 1) none none none none) "new1"
            "2025-02-01T00:00:00.000Z" =
          (.created pr "pending", db') ∧
        pr.status = "pending" ∧
        (∃ r ∈ db'.presets, r.id = "new1" ∧ r.status = "pending") ∧
        db'.presets.length = ({ presets := [], votes := [] } : Db).presets.length + 1) := by
  have hfind : (perspectiveScores (some 1) none none none none).find?
      (fun kv => decide (perspectiveThreshold ≤ kv.2)) = some ("toxicity", 1) := by
    norm_num [perspectiveScores, perspectiveThreshold, List.find?]
  have h := perspective_flagging_spec [] "k" (some 1) none none none none "toxicity" 1
    { presets := [], votes := [] } "u1" (some "Alice") flaggedBody "new1"
    "2025-02-01T00:00:00.000Z" (by decide) rfl hfind
  exact ⟨by decide, rfl, by decide, rfl, h.1, h.2.1, h.2.2 (by decide) rfl⟩

/-! ### C7 — duplicate detection collapses resubmissions -/

/-- A signature is never the empty string (it is at least `[]`), so
`rowToPreset` preserves it. -/
theorem generateDyeSignature_ne_empty (l : List Int) : generateDyeSignature l ≠ "" := by
  unfold generateDyeSignature jsonIntList
  intro h
  have hlen := congrArg String.length h
  rw [String.length_append, String.length_append] at hlen
  have h1 : ("[" : String).length = 1 := rfl
  have h2 : ("]" : String).length = 1 := rfl
  have h0 : ("" : String).length = 0 := rfl
  rw [h1, h2, h0] at hlen
  omega

/-- An approved preset row with dyes `[3,5]`, for the C7 counterexample. -/
def dupeRow : PresetRow :=
  { rejectedRow with
    id := "e1"
    status := "approved"
    dyes := [3, 5]
    dye_signature := some "[3,5]" }

/-- A store holding only `dupeRow`. -/
def dupeDb : Db :=
  { presets := [dupeRow]
    votes := [] }

/-- A valid submission whose dye list `[3,3,5]` equals `dupeRow`'s
`[3,5]` as a set but not as a multiset. -/
def c7Body : PresetSubmission :=
  { name := "Copy cat"
    description := "another try at it"
    category_id := "jobs"
    dyes := [3, 3, 5]
    tags := [] }

/-- C7 counterexample: a submission whose dye list is equal *as a set* to
an existing approved preset's is not returned as a duplicate — a new
preset row is created — because matching is by the multiset-preserving
signature. -/
theorem duplicate_requires_multiset_equality :
    c7Body.dyes.toFinset = dupeRow.dyes.toFinset ∧
      findDuplicatePreset dupeDb c7Body.dyes = none ∧
      (presetsRouterPost dupeDb "u2" (some "Bob") c7Body [] none .netError "n1"
        "2025-02-01T00:00:00.000Z").1.isCreated = true ∧
      (presetsRouterPost dupeDb "u2" (some "Bob") c7Body [] none .netError "n1"
        "2025-02-01T00:00:00.000Z").2.presets.length = 2 := by
  refine ⟨?_, ?_, ?_, ?_⟩ <;> decide

/-- C7 (amended): duplicate lookup targets exactly the approved/pending
presets whose stored signature equals the submitted dyes' signature —
equality as multisets, e.g. any permutation. A found duplicate is always
approved or pending (never rejected, hidden or flagged, so those dye
combinations can be resubmitted); when one exists for the submitted
multiset it is found; and the route then votes on the duplicate for the
submitter and returns it without adding any preset row. -/
theorem duplicate_collapse_spec (db : Db) (dyes dyes' : List Int)
    (q dup : CommunityPreset) (uid : String) (un : Option String)
    (body : PresetSubmission) (words : List String) (apiKey : Option String)
    (res : PerspectiveFetch) (nid now : String) :
    (findDuplicatePreset db dyes = some q →
      q.status = "approved" ∨ q.status = "pending") ∧
    ((∃ r ∈ db.presets, r.dye_signature = some (generateDyeSignature dyes') ∧
        (r.status = "approved" ∨ r.status = "pending")) → dyes.Perm dyes' →
      ∃ q', findDuplicatePreset db dyes = some q' ∧
        (q'.status = "approved" ∨ q'.status = "pending") ∧
        q'.dye_signature = some (generateDyeSignature dyes)) ∧
    (validateSubmission body = none → findDuplicatePreset db body.dyes = some dup →
      presetsRouterPost db uid un body words apiKey res nid now =
        (.duplicateFound dup ((addVote db dup.id uid now).1.success &&
            !((addVote db dup.id uid now).1.already_voted.getD false)),
         (addVote db dup.id uid now).2) ∧
      (addVote db dup.id uid now).2.presets.length = db.presets.length ∧
      (voteExists db dup.id uid = false →
        ({ preset_id := dup.id, user_discord_id := uid, created_at := now } : VoteRow) ∈
          (addVote db dup.id uid now).2.votes)) := by
  refine ⟨?_, ?_, ?_⟩
  · intro hq
    unfold findDuplicatePreset at hq
    rw [Option.map_eq_some'] at hq
    obtain ⟨row, hrow, hq⟩ := hq
    have hpred := List.find?_some hrow
    simp only [Bool.and_eq_true, Bool.or_eq_true, beq_iff_eq] at hpred
    rw [← hq]
    exact hpred.2
  · intro hex hperm
    obtain ⟨r, hr, hsig, hst⟩ := hex
    have hsig' : r.dye_signature = some (generateDyeSignature dyes) := by
      rw [hsig, dyeSignature_congr hperm]
    cases hfind : db.presets.find? (fun row =>
        row.dye_signature == some (generateDyeSignature dyes) &&
        (row.status == "approved" || row.status == "pending")) with
    | none =>
      exfalso
      have hnone := List.find?_eq_none.mp hfind r hr
      apply hnone
      simp only [Bool.and_eq_true, Bool.or_eq_true, beq_iff_eq]
      exact ⟨hsig', hst⟩
    | some row =>
      have hpred := List.find?_some hfind
      simp only [Bool.and_eq_true, Bool.or_eq_true, beq_iff_eq] at hpred
      refine ⟨rowToPreset row, ?_, hpred.2, ?_⟩
      · simp only [findDuplicatePreset]
        rw [hfind]
        rfl
      · show (match row.dye_signature with
          | some s => if s = "" then none else some s
          | none => none) = some (generateDyeSignature dyes)
        rw [hpred.1]
        simp [generateDyeSignature_ne_empty dyes]
  · intro hval hdup
    refine ⟨presetsRouterPost_duplicate db uid un body words apiKey res nid now dup
      hval hdup, addVote_presets_length db dup.id uid now, ?_⟩
    intro hnovote
    exact addVote_inserts db dup.id uid now hnovote

/-- An approved preset row with dyes `[9,5,3]`, for the C7 witness. -/
def w7Row : PresetRow :=
  { rejectedRow with
    id := "e2"
    status := "approved"
    dyes := [9, 5, 3]
    dye_signature := some "[3,5,9]" }

/-- A store holding only `w7Row`. -/
def w7Db : Db :=
  { presets := [w7Row]
    votes := [] }

/-- A valid submission with the permuted dye list `[5,3,9]`. -/
def w7Body : PresetSubmission :=
  { name := "Same palette"
    description := "identical dye set"
    category_id := "jobs"
    dyes := [5, 3, 9]
    tags := [] }

/-- C7 witness: the spec's own example — `[5,3,9]` submitted after an
approved preset with dyes `[9,5,3]` is collapsed onto it with a vote and
no new row. -/
theorem duplicate_collapse_spec_witness :
    validateSubmission w7Body = none ∧
      findDuplicatePreset w7Db w7Body.dyes = some (rowToPreset w7Row) ∧
      ((rowToPreset w7Row).status = "approved" ∨ (rowToPreset w7Row).status = "pending") ∧
      (∃ q', findDuplicatePreset w7Db [5, 3, 9] = some q' ∧
        (q'.status = "approved" ∨ q'.status = "pending") ∧
        q'.dye_signature = some (generateDyeSignature [5, 3, 9])) ∧
      presetsRouterPost w7Db "u2" (some "Bob") w7Body [] none .netError "n2"
          "2025-02-02T00:00:00.000Z" =
        (.duplicateFound (rowToPreset w7Row)
            ((addVote w7Db (rowToPreset w7Row).id "u2" "2025-02-02T00:00:00.000Z").1.success &&
              !((addVote w7Db (rowToPreset w7Row).id "u2"
                "2025-02-02T00:00:00.000Z").1.already_voted.getD false)),
         (addVote w7Db (rowToPreset w7Row).id "u2" "2025-02-02T00:00:00.000Z").2) ∧
      (addVote w7Db (rowToPreset w7Row).id "u2" "2025-02-02T00:00:00.000Z").2.presets.length =
        w7Db.presets.length ∧
      ({ preset_id := (rowToPreset w7Row).id, user_discord_id := "u2",
          created_at := "2025-02-02T00:00:00.000Z" } : VoteRow) ∈
        (addVote w7Db (rowToPreset w7Row).id "u2" "2025-02-02T00:00:00.000Z").2.votes := by
  have h := duplicate_collapse_spec w7Db [5, 3, 9] [9, 5, 3] (rowToPreset w7Row)
    (rowToPreset w7Row) "u2" (some "Bob") w7Body [] none .netError "n2"
    "2025-02-02T00:00:00.000Z"
  have hdup : findDuplicatePreset w7Db w7Body.dyes = some (rowToPreset w7Row) := by decide
  have hval : validateSubmission w7Body = none := by decide
  have h2 := h.2.1 ⟨w7Row, List.mem_singleton_self _, by decide, Or.inl (by decide)⟩
    (by decide)
  have h3 := h.2.2 hval hdup
  exact ⟨hval, hdup, Or.inl (by decide), h2, h3.1, h3.2.1, h3.2.2 (by decide)⟩

/-! ### C1 — the daily rate limiter and preset submission -/

/-- The `i`-th of a batch of approved presets authored by `u1` on
2025-01-15 (UTC), for the C1 store. -/
def c1Row (i : Nat) : PresetRow :=
  { rejectedRow with
    id := "old" ++ toString i
    status := "approved"
    created_at := "2025-01-15T06:00:00.000Z"
    updated_at := "2025-01-15T06:00:00.000Z" }

/-- A store in which user `u1` already created ten presets today. -/
def c1Db : Db :=
  { presets := (List.range 10).map c1Row
    votes := [] }

/-- A store in which user `u1` already created nine presets today. -/
def c1NineDb : Db :=
  { presets := (List.range 9).map c1Row
    votes := [] }

/-- A valid, non-duplicate submission for the C1 store. -/
def c1Body : PresetSubmission :=
  { name := "Fresh palette"
    description := "a new combination"
    category_id := "jobs"
    dyes := [7, 8]
    tags := [] }

/-- C1: the rate limiter itself computes exactly what the claim says —
ten presets created today yield `allowed = false, remaining = 0` and nine
yield `allowed = true, remaining = 1`, with `resetAt` the start of the
next UTC day — but the submission handler never consults it: the same
user's eleventh submission of the day is created successfully, growing
the presets table to eleven rows. -/
theorem rateLimiter_bypassed_on_submission :
    checkSubmissionRateLimit c1Db "u1" "2025-01-15T00:00:00.000Z"
        "2025-01-16T00:00:00.000Z" =
      { allowed := false, remaining := 0, resetAt := "2025-01-16T00:00:00.000Z" } ∧
      checkSubmissionRateLimit c1NineDb "u1" "2025-01-15T00:00:00.000Z"
          "2025-01-16T00:00:00.000Z" =
        { allowed := true, remaining := 1, resetAt := "2025-01-16T00:00:00.000Z" } ∧
      (presetsRouterPost c1Db "u1" (some "Alice") c1Body [] none .netError "new1"
        "2025-01-15T07:00:00.000Z").1.isCreated = true ∧
      (presetsRouterPost c1Db "u1" (some "Alice") c1Body [] none .netError "new1"
        "2025-01-15T07:00:00.000Z").2.presets.length = 11 := by
  refine ⟨?_, ?_, ?_, ?_⟩ <;> decide

end XivPresets
